import Mathlib

/-!
Verification of `src/demo-app/server.py`, a Flask application with two
routes:

  @app.route("/healthz")  -> returns the dict with the single entry
                             status = ok (Flask serialises a returned
                             dict as a JSON body with status 200)
  @app.route("/version")  -> returns os.environ.get("APP_VERSION", "unknown")
                             (Flask sends a returned string as a text
                             body with status 200)

The process environment is modelled as an association list from variable
names to values.  Flask routing is modelled by `dispatchS`: a route
registered with `@app.route(path)` and no `methods` argument accepts GET,
and Flask automatically answers HEAD and OPTIONS for it as well; a request
for an unregistered path gets 404, and a registered path with any other
method gets 405.  Handlers are embedded as state transformers over the
environment table so that (non-)mutation of the environment is visible in
the model; the Python bodies contain no writes to `os.environ`, so each
branch returns the incoming table unchanged.
-/

namespace SimplePyDev

/-- HTTP request methods relevant to Flask dispatch. -/
inductive Method where
  | GET
  | HEAD
  | OPTIONS
  | POST
  | PUT
  | DELETE
  | PATCH
  deriving DecidableEq

/-- The process environment variable table (`os.environ`): an association
list from variable names to values. -/
abbrev Env := List (String × String)

/-- Lookup of a key in the environment table, as Python dict lookup:
the value of the first matching key, or `none` when absent. -/
def envLookup : Env → String → Option String
  | [], _ => none
  | (k, v) :: rest, key => if k = key then some v else envLookup rest key

/-- Python `os.environ.get(key, dflt)`: the stored value when the key is
present (even when that value is the empty string), the default otherwise. -/
def environGet (e : Env) (key dflt : String) : String :=
  match envLookup e key with
  | some v => v
  | none => dflt

/-- Body of the `healthz` view function in `server.py`: the returned dict
with the single entry status = ok. -/
def healthz : List (String × String) := [("status", "ok")]

/-- Body of the `version` view function in `server.py`:
`os.environ.get("APP_VERSION", "unknown")`. -/
def version (e : Env) : String := environGet e "APP_VERSION" "unknown"

/-- An HTTP response body: a JSON object (Flask's serialisation of a
returned dict), a text body (a returned string), or an empty body
(HEAD/OPTIONS answers and framework error pages, whose content no claim
depends on). -/
inductive Body where
  | json (entries : List (String × String))
  | text (s : String)
  | empty
  deriving DecidableEq

/-- An HTTP response: status code and body. -/
structure Response where
  status : Nat
  body : Body
  deriving DecidableEq

/-- An HTTP request: method, path, and payload (request content; neither
view function reads it). -/
structure Request where
  method : Method
  path : String
  payload : String
  deriving DecidableEq

/-- Flask dispatch for the app of `server.py`, as a state transformer on
the environment table.  The two `@app.route` decorators register the paths
"/healthz" and "/version" for GET; Flask automatically answers HEAD and
OPTIONS on registered paths, answers 405 for other methods on registered
paths, and 404 for unregistered paths.  A returned dict becomes a JSON
body and a returned string a text body, each with status 200.  No branch
writes to the environment, as no line of `server.py` does. -/
def dispatchS (e : Env) (r : Request) : Response × Env :=
  if r.path = "/healthz" ∨ r.path = "/version" then
    match r.method with
    | Method.GET =>
        if r.path = "/healthz" then
          (⟨200, Body.json healthz⟩, e)
        else
          (⟨200, Body.text (version e)⟩, e)
    | Method.HEAD => (⟨200, Body.empty⟩, e)
    | Method.OPTIONS => (⟨200, Body.empty⟩, e)
    | _ => (⟨405, Body.empty⟩, e)
  else
    (⟨404, Body.empty⟩, e)

/-- The response part of `dispatchS`. -/
def dispatch (e : Env) (r : Request) : Response := (dispatchS e r).1

/-- A run of the server process: each step is handled against the
environment table current at that step (the table may be changed between
requests by agents outside the application). -/
def run (trace : List (Env × Request)) : List Response :=
  trace.map (fun step => dispatch step.1 step.2)

/-- Whether a status code is a 2xx success code. -/
def is2xx (s : Nat) : Bool := 200 ≤ s && s < 300

/-- Python `dict.get` with a default, with the possibility of an exception
made explicit: the absent-key branch returns the default rather than
raising, so no branch produces an error. -/
def environGetD (e : Env) (key dflt : String) : Except String String :=
  match envLookup e key with
  | some v => Except.ok v
  | none => Except.ok dflt

/-- The `version` view with the possibility of a Python exception made
explicit. -/
def versionE (e : Env) : Except String String :=
  environGetD e "APP_VERSION" "unknown"

/-- The `healthz` view with the possibility of a Python exception made
explicit: it builds and returns a literal dict. -/
def healthzE : Except String (List (String × String)) :=
  Except.ok [("status", "ok")]

/-- C1 counterexample: with APP_VERSION set to the empty string, GET
/version does not have body "unknown" (the code returns the stored empty
value: `os.environ.get` only falls back to the default when the key is
absent). -/
theorem C1_counterexample :
    dispatch [("APP_VERSION", "")] ⟨Method.GET, "/version", ""⟩ ≠
      ⟨200, Body.text "unknown"⟩ := by
  decide

/-- C1 (amended): for every request GET /version with APP_VERSION unset,
the response has status 200 and body "unknown"; when APP_VERSION is set to
the empty string the response has status 200 and empty text body instead. -/
theorem C1_version_unset (e : Env) (b : String)
    (h : envLookup e "APP_VERSION" = none) :
    dispatch e ⟨Method.GET, "/version", b⟩ = ⟨200, Body.text "unknown"⟩ ∧
      ∀ e' : Env, envLookup e' "APP_VERSION" = some "" →
        dispatch e' ⟨Method.GET, "/version", b⟩ = ⟨200, Body.text ""⟩ := by
  constructor
  · simp [dispatch, dispatchS, version, environGet, h]
  · intro e' h'
    simp [dispatch, dispatchS, version, environGet, h']

/-- C1 witness: the amended statement at the empty environment. -/
theorem C1_witness :
    dispatch [] ⟨Method.GET, "/version", ""⟩ = ⟨200, Body.text "unknown"⟩ :=
  (C1_version_unset [] "" rfl).1

/-- C2: for every environment table and request payload, GET /healthz
returns status 200 with the JSON body with the single entry status = ok. -/
theorem C2_healthz_ok (e : Env) (b : String) :
    dispatch e ⟨Method.GET, "/healthz", b⟩ = ⟨200, Body.json [("status", "ok")]⟩ := by
  simp [dispatch, dispatchS, healthz]

/-- C3: for every non-empty string v, GET /version while APP_VERSION has
value v returns status 200 and body exactly v. -/
theorem C3_version_set (e : Env) (v b : String) (_hv : v ≠ "")
    (h : envLookup e "APP_VERSION" = some v) :
    dispatch e ⟨Method.GET, "/version", b⟩ = ⟨200, Body.text v⟩ := by
  simp [dispatch, dispatchS, version, environGet, h]

/-- C3 witness: APP_VERSION set to "1.2.3" yields body "1.2.3". -/
theorem C3_witness :
    dispatch [("APP_VERSION", "1.2.3")] ⟨Method.GET, "/version", ""⟩ =
      ⟨200, Body.text "1.2.3"⟩ :=
  C3_version_set [("APP_VERSION", "1.2.3")] "1.2.3" "" (by decide) rfl

/-- C4: no caching — in any run, the response at each position is computed
from the environment table current at that step alone, so changing the
table between two requests changes the later response accordingly. -/
theorem C4_no_caching (pre post : List (Env × Request)) (e : Env) (r : Request) :
    run (pre ++ (e, r) :: post) = run pre ++ dispatch e r :: run post := by
  simp [run]

/-- C5: every request whose path is neither /healthz nor /version gets
status 404, which is not a 2xx status. -/
theorem C5_unknown_path (e : Env) (r : Request)
    (h1 : r.path ≠ "/healthz") (h2 : r.path ≠ "/version") :
    (dispatch e r).status = 404 ∧ is2xx (dispatch e r).status = false := by
  simp [dispatch, dispatchS, h1, h2, is2xx]

/-- C5 witness: a GET request for the path "/nope". -/
theorem C5_witness :
    (dispatch [] ⟨Method.GET, "/nope", ""⟩).status = 404 ∧
      is2xx (dispatch [] ⟨Method.GET, "/nope", ""⟩).status = false :=
  C5_unknown_path [] ⟨Method.GET, "/nope", ""⟩ (by decide) (by decide)

/-- C6 counterexample: HEAD is a method other than GET, yet HEAD /healthz
receives status 200, a 2xx status — Flask answers HEAD (and OPTIONS)
automatically on every registered route. -/
theorem C6_counterexample :
    Method.HEAD ≠ Method.GET ∧
      is2xx (dispatch [] ⟨Method.HEAD, "/healthz", ""⟩).status = true := by
  decide

/-- C6 (amended): for every method other than GET, HEAD and OPTIONS, a
request to /healthz or /version receives status 405, which is not a 2xx
status. -/
theorem C6_non_get (e : Env) (b p : String) (m : Method)
    (hp : p = "/healthz" ∨ p = "/version")
    (hm : m ≠ Method.GET ∧ m ≠ Method.HEAD ∧ m ≠ Method.OPTIONS) :
    (dispatch e ⟨m, p, b⟩).status = 405 ∧
      is2xx (dispatch e ⟨m, p, b⟩).status = false := by
  obtain ⟨h1, h2, h3⟩ := hm
  cases m with
  | GET => exact absurd rfl h1
  | HEAD => exact absurd rfl h2
  | OPTIONS => exact absurd rfl h3
  | POST => simp [dispatch, dispatchS, hp, is2xx]
  | PUT => simp [dispatch, dispatchS, hp, is2xx]
  | DELETE => simp [dispatch, dispatchS, hp, is2xx]
  | PATCH => simp [dispatch, dispatchS, hp, is2xx]

/-- C6 witness: POST /healthz receives 405. -/
theorem C6_witness :
    (dispatch [] ⟨Method.POST, "/healthz", ""⟩).status = 405 ∧
      is2xx (dispatch [] ⟨Method.POST, "/healthz", ""⟩).status = false :=
  C6_non_get [] "" "/healthz" Method.POST (Or.inl rfl)
    ⟨by decide, by decide, by decide⟩

/-- C7: no handler mutates the environment table — for every request, the
table after the request is exactly the table before it. -/
theorem C7_env_preserved (e : Env) (r : Request) :
    (dispatchS e r).2 = e := by
  rcases r with ⟨m, p, pl⟩
  by_cases hp : p = "/healthz" <;> by_cases hq : p = "/version" <;>
    cases m <;> simp [dispatchS, hp, hq]

/-- C8: statelessness — whenever two runs present the same environment
table and request at position i, their responses at position i are equal:
no earlier request or response influences the i-th answer. -/
theorem C8_stateless (t1 t2 : List (Env × Request)) (i : Nat)
    (h : t1[i]? = t2[i]?) :
    (run t1)[i]? = (run t2)[i]? := by
  simp [run, List.getElem?_map, h]

/-- C8 witness: two runs with different past steps but the same step at
position 1 give the same response at position 1. -/
theorem C8_witness :
    (run [([], ⟨Method.GET, "/healthz", ""⟩), ([], ⟨Method.GET, "/version", ""⟩)])[1]? =
      (run [([("APP_VERSION", "9")], ⟨Method.POST, "/nope", "x"⟩),
            ([], ⟨Method.GET, "/version", ""⟩)])[1]? :=
  C8_stateless
    [([], ⟨Method.GET, "/healthz", ""⟩), ([], ⟨Method.GET, "/version", ""⟩)]
    [([("APP_VERSION", "9")], ⟨Method.POST, "/nope", "x"⟩),
     ([], ⟨Method.GET, "/version", ""⟩)]
    1 rfl

/-- C9: both handlers are total — for every environment table the version
view returns a value without raising (the dict lookup carries a default,
so the absent-key branch yields the default rather than an error), and the
healthz view returns its literal dict. -/
theorem C9_total (e : Env) :
    (∃ s, versionE e = Except.ok s) ∧
      healthzE = Except.ok [("status", "ok")] := by
  refine ⟨?_, rfl⟩
  unfold versionE environGetD
  cases envLookup e "APP_VERSION" with
  | none => exact ⟨"unknown", rfl⟩
  | some v => exact ⟨v, rfl⟩

/-- C10: both handlers are deterministic — the response depends only on
the method, the path and the environment table: identical tables give
identical responses, whatever the request payloads. -/
theorem C10_deterministic (e e' : Env) (m : Method) (p b1 b2 : String)
    (he : e = e') :
    dispatch e ⟨m, p, b1⟩ = dispatch e' ⟨m, p, b2⟩ := by
  subst he
  rfl

/-- C10 witness: two GET /version invocations with different payloads
under the same table answer identically. -/
theorem C10_witness :
    dispatch [("APP_VERSION", "1.2.3")] ⟨Method.GET, "/version", "a"⟩ =
      dispatch [("APP_VERSION", "1.2.3")] ⟨Method.GET, "/version", "b"⟩ :=
  C10_deterministic [("APP_VERSION", "1.2.3")] [("APP_VERSION", "1.2.3")]
    Method.GET "/version" "a" "b" rfl

end SimplePyDev
